import Mathlib

/-!
Shallow embedding of the `PredictedProcess` class (src/PredictedProcess.ts).

The class manages execution of an external command: `run(signal?)` spawns a
child process via the OS, memoizes the resulting promise in
`_memoizedResult`, bridges an optional `AbortSignal` into forced
termination, and `memoize()` returns a fresh instance sharing the cached
promise reference.

The embedding makes the JavaScript heap explicit: a `SysState` maps numeric
ids to unit objects, child-process handles, promise cells and abort
signals.  The async function `run` is split at its single `await` point
into `runPhase1` (the synchronous prefix: aborted-signal check, attach to a
cached promise or spawn) and `runResume` (the continuation that runs when
the awaited promise settles).  Promise settlement is first-writer-wins, as
in JavaScript.  Event delivery (process error, process close, signal
abort) is modelled by explicit event functions, and whole schedules by an
`Event` trace interpreter.
-/

namespace PProc

/-- The distinct `Error` values constructed in `run`, one constructor per
construction site: the pre-fired-signal throw, the process `error`
notification, the nonzero `close` code, and the `abort` listener. -/
inductive Reason where
  | alreadyAborted : Reason
  | spawnError (msg : String) : Reason
  | nonZeroExit (code : Int) : Reason
  | abortTriggered : Reason
deriving DecidableEq

/-- The message string carried by each `Error`, exactly as the source
builds it (`new Error('Signal already aborted')`, the template literal
with the exit code, `new Error('AbortSignal triggered')`). -/
def Reason.message : Reason → String
  | .alreadyAborted => "Signal already aborted"
  | .spawnError msg => msg
  | .nonZeroExit code => "Process exited with code " ++ toString code
  | .abortTriggered => "AbortSignal triggered"

/-- State of a promise cell: pending, resolved (success), or rejected. -/
inductive PromState where
  | pending : PromState
  | resolvedOk : PromState
  | rejected (r : Reason) : PromState
deriving DecidableEq

/-- What a registered handler closes over: the `this` object of the `run`
call (`uid`) and the `resolve`/`reject` pair of the promise created for
that execution (`prom`). -/
structure ExecCtx where
  uid : Nat
  prom : Nat
deriving DecidableEq

/-- A `ChildProcess` handle.  `listenersCtx = some ctx` means the `error`
and `close` handlers from the executor are attached; `removeAllListeners`
sets it to `none`.  `killed` records that `kill()` was invoked, and
`releaseCount` counts how many times the `cleanup` body acted on this
handle (to observe double release). -/
structure ProcHandle where
  cmd : String
  listenersCtx : Option ExecCtx
  killed : Bool
  releaseCount : Nat
deriving DecidableEq

/-- One `PredictedProcess` object: the readonly `id` and `command` and the
two mutable private fields `_childProcess` and `_memoizedResult` (as ids
into the heap, `none` for `null`). -/
structure PredictedProcess where
  id : Int
  command : String
  childProcess : Option Nat
  memoizedResult : Option Nat
deriving DecidableEq

/-- An `AbortSignal`: whether it has fired, and the listeners registered by
`signal?.addEventListener('abort', ...)`, in registration order.  Each
listener is a `handleError` closure identified by its `ExecCtx`. -/
structure AbortSignalState where
  aborted : Bool
  abortListeners : List ExecCtx
deriving DecidableEq

/-- The whole heap: unit objects, process handles, promise cells and
signals, keyed by numeric ids, together with fresh-id counters.
`nextPid` doubles as the count of processes spawned so far. -/
structure SysState where
  units : Nat → Option PredictedProcess
  procs : Nat → Option ProcHandle
  promises : Nat → Option PromState
  signals : Nat → Option AbortSignalState
  nextUid : Nat
  nextPid : Nat
  nextProm : Nat
  nextSid : Nat

/-- Look up a unit object. -/
def getUnit (st : SysState) (uid : Nat) : Option PredictedProcess :=
  st.units uid

/-- Current value of the unit's `_memoizedResult` field. -/
def memoOf (st : SysState) (uid : Nat) : Option Nat :=
  (st.units uid).bind (fun u => u.memoizedResult)

/-- Current value of the unit's `_childProcess` field. -/
def childOf (st : SysState) (uid : Nat) : Option Nat :=
  (st.units uid).bind (fun u => u.childProcess)

/-- Look up a process handle. -/
def getProc (st : SysState) (pid : Nat) : Option ProcHandle :=
  st.procs pid

/-- Look up a promise cell. -/
def getProm (st : SysState) (p : Nat) : Option PromState :=
  st.promises p

/-- Look up a signal. -/
def getSignal (st : SysState) (sid : Nat) : Option AbortSignalState :=
  st.signals sid

/-- Mutate the unit object stored at `uid` (a field assignment on `this`). -/
def updUnit (st : SysState) (uid : Nat) (f : PredictedProcess → PredictedProcess) : SysState :=
  { st with units := fun n => if n = uid then (st.units n).map f else st.units n }

/-- Mutate the process handle stored at `pid`. -/
def updProc (st : SysState) (pid : Nat) (f : ProcHandle → ProcHandle) : SysState :=
  { st with procs := fun n => if n = pid then (st.procs n).map f else st.procs n }

/-- Mutate the signal stored at `sid`. -/
def updSignal (st : SysState) (sid : Nat) (f : AbortSignalState → AbortSignalState) : SysState :=
  { st with signals := fun n => if n = sid then (st.signals n).map f else st.signals n }

/-- Settle a promise, first-writer-wins: `resolve`/`reject` on an already
settled promise is a no-op, as in JavaScript. -/
def settleProm (st : SysState) (p : Nat) (s : PromState) : SysState :=
  { st with promises := fun n =>
      if n = p then (st.promises n).map (fun cur => if cur = PromState.pending then s else cur)
      else st.promises n }

/-- The private `cleanup` method: if `this._childProcess` is set, call
`removeAllListeners()` and `kill()` on it.  The field itself is not
cleared, mirroring the source. -/
def cleanup (st : SysState) (uid : Nat) : SysState :=
  match (st.units uid).bind (fun u => u.childProcess) with
  | some pid =>
      updProc st pid (fun p =>
        { p with listenersCtx := none, killed := true, releaseCount := p.releaseCount + 1 })
  | none => st

/-- The `handleError` closure from the executor: `this.cleanup()`, then
`this._memoizedResult = null`, then `reject(error)` on the promise the
closure captured. -/
def handleError (st : SysState) (uid : Nat) (prom : Nat) (r : Reason) : SysState :=
  let st1 := cleanup st uid
  let st2 := updUnit st1 uid (fun u => { u with memoizedResult := none })
  settleProm st2 prom (PromState.rejected r)

/-- Delivery of a child process `error` notification: if the handlers are
still attached, run `handleError` with the reported error. -/
def procErrorEvent (st : SysState) (pid : Nat) (msg : String) : SysState :=
  match (st.procs pid).bind (fun p => p.listenersCtx) with
  | some ctx => handleError st ctx.uid ctx.prom (Reason.spawnError msg)
  | none => st

/-- Delivery of a child process `close` notification with exit code
`code`: if the handlers are still attached, run the `close` handler —
`this.cleanup()`, then `resolve()` on code zero, else
`handleError(new Error(...))` (which runs `cleanup` a second time). -/
def procCloseEvent (st : SysState) (pid : Nat) (code : Int) : SysState :=
  match (st.procs pid).bind (fun p => p.listenersCtx) with
  | some ctx =>
      let st1 := cleanup st ctx.uid
      if code = 0 then settleProm st1 ctx.prom PromState.resolvedOk
      else handleError st1 ctx.uid ctx.prom (Reason.nonZeroExit code)
  | none => st

/-- Firing of an `AbortSignal`: a signal fires at most once; on first
firing, every registered `abort` listener runs in registration order, each
being `handleError(new Error('AbortSignal triggered'))`. -/
def abortEvent (st : SysState) (sid : Nat) : SysState :=
  match st.signals sid with
  | some g =>
      if g.aborted then st
      else
        let st1 := updSignal st sid (fun g2 => { g2 with aborted := true })
        g.abortListeners.foldl
          (fun acc ctx => handleError acc ctx.uid ctx.prom Reason.abortTriggered) st1
  | none => st

/-- The body of the promise executor together with the assignment
`this._memoizedResult = new Promise(...)`: spawn a process handle running
`this.command`, store it in `this._childProcess`, attach the `error` and
`close` handlers, register the `abort` listener when a signal was passed,
and store the new pending promise in `this._memoizedResult`.  Returns the
new promise's id. -/
def spawnFor (st : SysState) (uid : Nat) (sig : Option Nat) : SysState × Nat :=
  let q := st.nextProm
  let pid := st.nextPid
  let ctx : ExecCtx := { uid := uid, prom := q }
  let cmd := ((st.units uid).map (fun u => u.command)).getD ""
  let st1 : SysState :=
    { st with
      nextProm := q + 1
      nextPid := pid + 1
      promises := fun n => if n = q then some PromState.pending else st.promises n
      procs := fun n =>
        if n = pid then
          some { cmd := cmd, listenersCtx := some ctx, killed := false, releaseCount := 0 }
        else st.procs n }
  let st2 := updUnit st1 uid (fun u => { u with childProcess := some pid })
  let st3 :=
    match sig with
    | some s => updSignal st2 s (fun g => { g with abortListeners := g.abortListeners ++ [ctx] })
    | none => st2
  let st4 := updUnit st3 uid (fun u => { u with memoizedResult := some q })
  (st4, q)

/-- Whether `signal?.aborted` evaluates to true. -/
def sigAborted (st : SysState) (sig : Option Nat) : Bool :=
  match sig with
  | some s => ((st.signals s).map (fun g => g.aborted)).getD false
  | none => false

/-- How a `run` call stands after a synchronous segment: it threw
synchronously (the async function rejects with `r`), it is suspended on
`await this._memoizedResult`, or it returned the promise `q` to its
caller (the call's outcome is then `q`'s eventual state). -/
inductive RunStatus where
  | thrown (r : Reason)
  | awaiting (p : Nat)
  | returned (q : Nat)
deriving DecidableEq

/-- The synchronous prefix of `run(signal?)`: throw on an already-aborted
signal; otherwise if `_memoizedResult` is set, suspend awaiting it;
otherwise run the spawn block and return the new promise.  Up to the
first `await`, this whole segment is atomic on the JavaScript thread. -/
def runPhase1 (st : SysState) (uid : Nat) (sig : Option Nat) : SysState × RunStatus :=
  if sigAborted st sig then (st, RunStatus.thrown Reason.alreadyAborted)
  else
    match memoOf st uid with
    | some p => (st, RunStatus.awaiting p)
    | none =>
        let r := spawnFor st uid sig
        (r.1, RunStatus.returned r.2)

/-- The continuation of `run` after `await this._memoizedResult` (on
promise `p`) resumes: on rejection the `catch` sets
`this._memoizedResult = null` and the following `if` spawns afresh; on
resolution the `if` re-reads the field — normally still set, in which
case the current field value is returned. -/
def runResume (st : SysState) (uid : Nat) (sig : Option Nat) (p : Nat) : SysState × RunStatus :=
  match getProm st p with
  | some (PromState.rejected _) =>
      let st1 := updUnit st uid (fun u => { u with memoizedResult := none })
      let r := spawnFor st1 uid sig
      (r.1, RunStatus.returned r.2)
  | some PromState.resolvedOk =>
      match memoOf st uid with
      | some m => (st, RunStatus.returned m)
      | none =>
          let r := spawnFor st uid sig
          (r.1, RunStatus.returned r.2)
  | _ => (st, RunStatus.awaiting p)

/-- The `memoize` method: `new PredictedProcess(this.id, this.command)`
(fields start `null`), then copy the `_memoizedResult` reference.  The
new object gets the next fresh unit id, which is returned. -/
def memoize (st : SysState) (uid : Nat) : SysState × Nat :=
  match st.units uid with
  | some u =>
      let v : PredictedProcess :=
        { id := u.id, command := u.command, childProcess := none,
          memoizedResult := u.memoizedResult }
      ({ st with
          units := fun n => if n = st.nextUid then some v else st.units n
          nextUid := st.nextUid + 1 },
        st.nextUid)
  | none => (st, st.nextUid)

/-- Allocation of a fresh `PredictedProcess` via the constructor. -/
def newUnitOp (st : SysState) (i : Int) (c : String) : SysState :=
  { st with
    units := fun n =>
      if n = st.nextUid then
        some { id := i, command := c, childProcess := none, memoizedResult := none }
      else st.units n
    nextUid := st.nextUid + 1 }

/-- Allocation of a fresh, not-yet-fired `AbortSignal`. -/
def newSignalOp (st : SysState) : SysState :=
  { st with
    signals := fun n =>
      if n = st.nextSid then some { aborted := false, abortListeners := [] }
      else st.signals n
    nextSid := st.nextSid + 1 }

/-- One observable scheduler step: caller actions (construction, `run`
calls and their resumptions, `memoize`) and asynchronous notifications
(process error/close, signal abort). -/
inductive Event where
  | newUnit (id : Int) (cmd : String)
  | newSignal
  | callRun (uid : Nat) (sig : Option Nat)
  | resumeRun (uid : Nat) (sig : Option Nat) (p : Nat)
  | procError (pid : Nat) (msg : String)
  | procClose (pid : Nat) (code : Int)
  | abortFired (sid : Nat)
  | takeSnapshot (uid : Nat)

/-- Interpretation of one event on the heap. -/
def step (st : SysState) : Event → SysState
  | Event.newUnit i c => newUnitOp st i c
  | Event.newSignal => newSignalOp st
  | Event.callRun uid sig => (runPhase1 st uid sig).1
  | Event.resumeRun uid sig p => (runResume st uid sig p).1
  | Event.procError pid msg => procErrorEvent st pid msg
  | Event.procClose pid code => procCloseEvent st pid code
  | Event.abortFired sid => abortEvent st sid
  | Event.takeSnapshot uid => (memoize st uid).1

/-- The empty heap. -/
def init : SysState :=
  { units := fun _ => none, procs := fun _ => none, promises := fun _ => none,
    signals := fun _ => none, nextUid := 0, nextPid := 0, nextProm := 0, nextSid := 0 }

/-- Run a whole schedule from the empty heap. -/
def runTrace (tr : List Event) : SysState :=
  tr.foldl step init

/-! ### Frame lemmas for the basic heap operations -/

theorem getProm_updUnit (st : SysState) (uid : Nat) (f : PredictedProcess → PredictedProcess)
    (p : Nat) : getProm (updUnit st uid f) p = getProm st p := rfl

theorem getProc_updUnit (st : SysState) (uid : Nat) (f : PredictedProcess → PredictedProcess)
    (pid : Nat) : getProc (updUnit st uid f) pid = getProc st pid := rfl

theorem sigAborted_updUnit (st : SysState) (uid : Nat) (f : PredictedProcess → PredictedProcess)
    (sig : Option Nat) : sigAborted (updUnit st uid f) sig = sigAborted st sig := rfl

theorem memoOf_updUnit_self (st : SysState) (uid : Nat) (f : PredictedProcess → PredictedProcess) :
    memoOf (updUnit st uid f) uid = ((st.units uid).map f).bind (fun u => u.memoizedResult) := by
  simp [memoOf, updUnit]

theorem memoOf_updUnit_ne (st : SysState) (uid v : Nat) (f : PredictedProcess → PredictedProcess)
    (h : v ≠ uid) : memoOf (updUnit st uid f) v = memoOf st v := by
  simp [memoOf, updUnit, h]

theorem childOf_updUnit_self (st : SysState) (uid : Nat) (f : PredictedProcess → PredictedProcess) :
    childOf (updUnit st uid f) uid = ((st.units uid).map f).bind (fun u => u.childProcess) := by
  simp [childOf, updUnit]

theorem childOf_updUnit_ne (st : SysState) (uid v : Nat) (f : PredictedProcess → PredictedProcess)
    (h : v ≠ uid) : childOf (updUnit st uid f) v = childOf st v := by
  simp [childOf, updUnit, h]

theorem memoOf_updProc (st : SysState) (pid : Nat) (f : ProcHandle → ProcHandle) (v : Nat) :
    memoOf (updProc st pid f) v = memoOf st v := rfl

theorem childOf_updProc (st : SysState) (pid : Nat) (f : ProcHandle → ProcHandle) (v : Nat) :
    childOf (updProc st pid f) v = childOf st v := rfl

theorem getProm_updProc (st : SysState) (pid : Nat) (f : ProcHandle → ProcHandle) (p : Nat) :
    getProm (updProc st pid f) p = getProm st p := rfl

theorem getUnit_updSignal (st : SysState) (sid : Nat) (f : AbortSignalState → AbortSignalState)
    (v : Nat) : getUnit (updSignal st sid f) v = getUnit st v := rfl

theorem getProm_updSignal (st : SysState) (sid : Nat) (f : AbortSignalState → AbortSignalState)
    (p : Nat) : getProm (updSignal st sid f) p = getProm st p := rfl

theorem getProc_updSignal (st : SysState) (sid : Nat) (f : AbortSignalState → AbortSignalState)
    (pid : Nat) : getProc (updSignal st sid f) pid = getProc st pid := rfl

theorem getProm_settleProm_self (st : SysState) (p : Nat) (s : PromState)
    (h : getProm st p = some PromState.pending) :
    getProm (settleProm st p s) p = some s := by
  simp [getProm, settleProm] at h ⊢
  simp [h]

theorem getProm_settleProm_settled (st : SysState) (p : Nat) (s cur : PromState)
    (h : getProm st p = some cur) (hcur : cur ≠ PromState.pending) :
    getProm (settleProm st p s) p = some cur := by
  simp [getProm, settleProm] at h ⊢
  simp [h, hcur]

theorem getProm_settleProm_ne (st : SysState) (p q : Nat) (s : PromState) (h : q ≠ p) :
    getProm (settleProm st p s) q = getProm st q := by
  simp [getProm, settleProm, h]

theorem memoOf_settleProm (st : SysState) (p : Nat) (s : PromState) (v : Nat) :
    memoOf (settleProm st p s) v = memoOf st v := rfl

theorem childOf_settleProm (st : SysState) (p : Nat) (s : PromState) (v : Nat) :
    childOf (settleProm st p s) v = childOf st v := rfl

theorem getProc_settleProm (st : SysState) (p : Nat) (s : PromState) (pid : Nat) :
    getProc (settleProm st p s) pid = getProc st pid := rfl

/-! ### Lemmas about `cleanup` -/

theorem getProm_cleanup (st : SysState) (uid : Nat) (p : Nat) :
    getProm (cleanup st uid) p = getProm st p := by
  unfold cleanup
  cases (st.units uid).bind (fun u => u.childProcess) <;> rfl

theorem memoOf_cleanup (st : SysState) (uid v : Nat) :
    memoOf (cleanup st uid) v = memoOf st v := by
  unfold cleanup
  cases (st.units uid).bind (fun u => u.childProcess) <;> rfl

theorem childOf_cleanup (st : SysState) (uid v : Nat) :
    childOf (cleanup st uid) v = childOf st v := by
  unfold cleanup
  cases (st.units uid).bind (fun u => u.childProcess) <;> rfl

theorem getUnit_cleanup (st : SysState) (uid v : Nat) :
    getUnit (cleanup st uid) v = getUnit st v := by
  unfold cleanup
  cases (st.units uid).bind (fun u => u.childProcess) <;> rfl

theorem getProc_cleanup_self (st : SysState) (uid pid : Nat) (P : ProcHandle)
    (hchild : childOf st uid = some pid) (hp : getProc st pid = some P) :
    getProc (cleanup st uid) pid =
      some { cmd := P.cmd, listenersCtx := none, killed := true,
             releaseCount := P.releaseCount + 1 } := by
  unfold cleanup
  simp [childOf] at hchild
  simp [hchild, updProc, getProc]
  simp [getProc] at hp
  simp [hp]

/-! ### Lemmas about `handleError` -/

theorem memoOf_handleError_self (st : SysState) (uid q : Nat) (r : Reason) :
    memoOf (handleError st uid q r) uid = none := by
  unfold handleError
  rw [memoOf_settleProm, memoOf_updUnit_self]
  cases (cleanup st uid).units uid <;> simp

theorem memoOf_handleError_ne (st : SysState) (uid q v : Nat) (r : Reason) (h : v ≠ uid) :
    memoOf (handleError st uid q r) v = memoOf st v := by
  unfold handleError
  rw [memoOf_settleProm, memoOf_updUnit_ne _ _ _ _ h, memoOf_cleanup]

theorem childOf_handleError (st : SysState) (uid q v : Nat) (r : Reason) :
    childOf (handleError st uid q r) v = childOf st v := by
  unfold handleError
  rw [childOf_settleProm]
  by_cases hv : v = uid
  · subst hv
    rw [childOf_updUnit_self, ← childOf_cleanup st v v]
    unfold childOf
    cases (cleanup st v).units v <;> simp
  · rw [childOf_updUnit_ne _ _ _ _ hv, childOf_cleanup]

theorem getProm_handleError_self (st : SysState) (uid q : Nat) (r : Reason)
    (h : getProm st q = some PromState.pending) :
    getProm (handleError st uid q r) q = some (PromState.rejected r) := by
  unfold handleError
  apply getProm_settleProm_self
  rw [getProm_updUnit, getProm_cleanup]
  exact h

theorem getProc_handleError_self (st : SysState) (uid q pid : Nat) (r : Reason) (P : ProcHandle)
    (hchild : childOf st uid = some pid) (hp : getProc st pid = some P) :
    getProc (handleError st uid q r) pid =
      some { cmd := P.cmd, listenersCtx := none, killed := true,
             releaseCount := P.releaseCount + 1 } := by
  unfold handleError
  rw [getProc_settleProm, getProc_updUnit]
  exact getProc_cleanup_self st uid pid P hchild hp

/-! ### Lemmas about `spawnFor` -/

theorem spawnFor_snd (st : SysState) (uid : Nat) (sig : Option Nat) :
    (spawnFor st uid sig).2 = st.nextProm := by
  unfold spawnFor
  cases sig <;> rfl

theorem memoOf_spawnFor_self (st : SysState) (uid : Nat) (sig : Option Nat)
    (u : PredictedProcess) (hu : getUnit st uid = some u) :
    memoOf (spawnFor st uid sig).1 uid = some st.nextProm := by
  simp [getUnit] at hu
  cases sig <;> simp [spawnFor, memoOf, updUnit, updSignal, hu]

theorem memoOf_spawnFor_ne (st : SysState) (uid : Nat) (sig : Option Nat) (v : Nat)
    (hv : v ≠ uid) : memoOf (spawnFor st uid sig).1 v = memoOf st v := by
  cases sig <;> simp [spawnFor, memoOf, updUnit, updSignal, hv]

theorem childOf_spawnFor_self (st : SysState) (uid : Nat) (sig : Option Nat)
    (u : PredictedProcess) (hu : getUnit st uid = some u) :
    childOf (spawnFor st uid sig).1 uid = some st.nextPid := by
  simp [getUnit] at hu
  cases sig <;> simp [spawnFor, childOf, updUnit, updSignal, hu]

theorem getProm_spawnFor_new (st : SysState) (uid : Nat) (sig : Option Nat) :
    getProm (spawnFor st uid sig).1 st.nextProm = some PromState.pending := by
  cases sig <;> simp [spawnFor, getProm, updUnit, updSignal]

theorem getProm_spawnFor_old (st : SysState) (uid : Nat) (sig : Option Nat) (p : Nat)
    (hp : p ≠ st.nextProm) : getProm (spawnFor st uid sig).1 p = getProm st p := by
  cases sig <;> simp [spawnFor, getProm, updUnit, updSignal, hp]

theorem getProc_spawnFor_new (st : SysState) (uid : Nat) (sig : Option Nat)
    (u : PredictedProcess) (hu : getUnit st uid = some u) :
    getProc (spawnFor st uid sig).1 st.nextPid =
      some { cmd := u.command, listenersCtx := some { uid := uid, prom := st.nextProm },
             killed := false, releaseCount := 0 } := by
  simp [getUnit] at hu
  cases sig <;> simp [spawnFor, getProc, updUnit, updSignal, hu]

theorem nextPid_spawnFor (st : SysState) (uid : Nat) (sig : Option Nat) :
    (spawnFor st uid sig).1.nextPid = st.nextPid + 1 := by
  cases sig <;> simp [spawnFor, updUnit, updSignal]

theorem nextProm_spawnFor (st : SysState) (uid : Nat) (sig : Option Nat) :
    (spawnFor st uid sig).1.nextProm = st.nextProm + 1 := by
  cases sig <;> simp [spawnFor, updUnit, updSignal]

theorem sigAborted_spawnFor (st : SysState) (uid : Nat) (sig sig' : Option Nat) :
    sigAborted (spawnFor st uid sig).1 sig' = sigAborted st sig' := by
  cases sig <;> cases sig' <;>
    simp [spawnFor, sigAborted, updUnit, updSignal]
  case some.some s s' =>
    by_cases hs : s' = s
    · subst hs
      cases st.signals s' <;> simp
    · simp [hs]

theorem memoOf_updSignal (st : SysState) (sid : Nat) (f : AbortSignalState → AbortSignalState)
    (v : Nat) : memoOf (updSignal st sid f) v = memoOf st v := rfl

theorem childOf_updSignal (st : SysState) (sid : Nat) (f : AbortSignalState → AbortSignalState)
    (v : Nat) : childOf (updSignal st sid f) v = childOf st v := rfl

theorem getUnit_settleProm (st : SysState) (p : Nat) (s : PromState) (v : Nat) :
    getUnit (settleProm st p s) v = getUnit st v := rfl

theorem getUnit_updUnit_ne (st : SysState) (uid v : Nat) (f : PredictedProcess → PredictedProcess)
    (h : v ≠ uid) : getUnit (updUnit st uid f) v = getUnit st v := by
  simp [getUnit, updUnit, h]

theorem nextPid_updUnit (st : SysState) (uid : Nat) (f : PredictedProcess → PredictedProcess) :
    (updUnit st uid f).nextPid = st.nextPid := rfl

theorem nextPid_settleProm (st : SysState) (p : Nat) (s : PromState) :
    (settleProm st p s).nextPid = st.nextPid := rfl

theorem nextPid_cleanup (st : SysState) (uid : Nat) :
    (cleanup st uid).nextPid = st.nextPid := by
  unfold cleanup
  cases (st.units uid).bind (fun u => u.childProcess) <;> rfl

theorem nextPid_handleError (st : SysState) (uid q : Nat) (r : Reason) :
    (handleError st uid q r).nextPid = st.nextPid := by
  unfold handleError
  rw [nextPid_settleProm, nextPid_updUnit, nextPid_cleanup]

theorem nextProm_updUnit (st : SysState) (uid : Nat) (f : PredictedProcess → PredictedProcess) :
    (updUnit st uid f).nextProm = st.nextProm := rfl

theorem nextProm_settleProm (st : SysState) (p : Nat) (s : PromState) :
    (settleProm st p s).nextProm = st.nextProm := rfl

theorem nextProm_cleanup (st : SysState) (uid : Nat) :
    (cleanup st uid).nextProm = st.nextProm := by
  unfold cleanup
  cases (st.units uid).bind (fun u => u.childProcess) <;> rfl

theorem nextProm_handleError (st : SysState) (uid q : Nat) (r : Reason) :
    (handleError st uid q r).nextProm = st.nextProm := by
  unfold handleError
  rw [nextProm_settleProm, nextProm_updUnit, nextProm_cleanup]

theorem sigAborted_none (st : SysState) : sigAborted st none = false := rfl

/-! ### Frame lemmas for `memoize` -/

theorem getProc_memoize (st : SysState) (uid pid : Nat) :
    getProc (memoize st uid).1 pid = getProc st pid := by
  unfold memoize
  cases st.units uid <;> rfl

theorem getProm_memoize (st : SysState) (uid p : Nat) :
    getProm (memoize st uid).1 p = getProm st p := by
  unfold memoize
  cases st.units uid <;> rfl

theorem nextProm_memoize (st : SysState) (uid : Nat) :
    (memoize st uid).1.nextProm = st.nextProm := by
  unfold memoize
  cases st.units uid <;> rfl

theorem getUnit_memoize_ne (st : SysState) (uid v : Nat) (h : v ≠ st.nextUid) :
    getUnit (memoize st uid).1 v = getUnit st v := by
  unfold memoize
  cases st.units uid <;> simp [getUnit, h]

/-! ### Decomposition of the `run` phases and the event handlers -/

theorem runPhase1_prefired (st : SysState) (uid : Nat) (sig : Option Nat)
    (h : sigAborted st sig = true) :
    runPhase1 st uid sig = (st, RunStatus.thrown Reason.alreadyAborted) := by
  simp [runPhase1, h]

theorem runPhase1_attach (st : SysState) (uid : Nat) (sig : Option Nat) (p : Nat)
    (h1 : sigAborted st sig = false) (h2 : memoOf st uid = some p) :
    runPhase1 st uid sig = (st, RunStatus.awaiting p) := by
  simp [runPhase1, h1, h2]

theorem runPhase1_spawn (st : SysState) (uid : Nat) (sig : Option Nat)
    (h1 : sigAborted st sig = false) (h2 : memoOf st uid = none) :
    runPhase1 st uid sig = ((spawnFor st uid sig).1, RunStatus.returned st.nextProm) := by
  simp [runPhase1, h1, h2, spawnFor_snd]

theorem runResume_resolved (st : SysState) (uid : Nat) (sig : Option Nat) (p m : Nat)
    (h1 : getProm st p = some PromState.resolvedOk) (h2 : memoOf st uid = some m) :
    runResume st uid sig p = (st, RunStatus.returned m) := by
  simp [runResume, h1, h2]

theorem runResume_rejected (st : SysState) (uid : Nat) (sig : Option Nat) (p : Nat) (r : Reason)
    (h : getProm st p = some (PromState.rejected r)) :
    runResume st uid sig p =
      ((spawnFor (updUnit st uid (fun u => { u with memoizedResult := none })) uid sig).1,
        RunStatus.returned st.nextProm) := by
  simp [runResume, h, spawnFor_snd]
  rfl

theorem procErrorEvent_eq (st : SysState) (pid : Nat) (msg : String) (P : ProcHandle)
    (ctx : ExecCtx) (h1 : getProc st pid = some P) (h2 : P.listenersCtx = some ctx) :
    procErrorEvent st pid msg = handleError st ctx.uid ctx.prom (Reason.spawnError msg) := by
  simp [getProc] at h1
  simp [procErrorEvent, h1, h2]

theorem procCloseEvent_zero (st : SysState) (pid : Nat) (P : ProcHandle) (ctx : ExecCtx)
    (h1 : getProc st pid = some P) (h2 : P.listenersCtx = some ctx) :
    procCloseEvent st pid 0 = settleProm (cleanup st ctx.uid) ctx.prom PromState.resolvedOk := by
  simp [getProc] at h1
  simp [procCloseEvent, h1, h2]

theorem procCloseEvent_nonzero (st : SysState) (pid : Nat) (code : Int) (P : ProcHandle)
    (ctx : ExecCtx) (h1 : getProc st pid = some P) (h2 : P.listenersCtx = some ctx)
    (hc : code ≠ 0) :
    procCloseEvent st pid code =
      handleError (cleanup st ctx.uid) ctx.uid ctx.prom (Reason.nonZeroExit code) := by
  simp [getProc] at h1
  simp [procCloseEvent, h1, h2, hc]

theorem abortEvent_single (st : SysState) (sid : Nat) (g : AbortSignalState) (ctx : ExecCtx)
    (h1 : getSignal st sid = some g) (h2 : g.aborted = false) (h3 : g.abortListeners = [ctx]) :
    abortEvent st sid =
      handleError (updSignal st sid (fun g2 => { g2 with aborted := true }))
        ctx.uid ctx.prom Reason.abortTriggered := by
  simp [getSignal] at h1
  simp [abortEvent, h1, h2, h3]

/-! ### Claim theorems -/

/-- C3: calling `run` with an already-aborted signal throws
`Error('Signal already aborted')` synchronously; the heap is returned
unchanged, so no process is spawned and neither `_memoizedResult` nor
`_childProcess` of any unit is touched. -/
theorem C3_prefired_short_circuit (st : SysState) (uid s : Nat)
    (h : sigAborted st (some s) = true) :
    runPhase1 st uid (some s) = (st, RunStatus.thrown Reason.alreadyAborted) ∧
    Reason.message Reason.alreadyAborted = "Signal already aborted" :=
  ⟨runPhase1_prefired st uid (some s) h, rfl⟩

/-- Witness for C3: a freshly allocated signal that has already fired. -/
theorem C3_witness :
    runPhase1 (runTrace [Event.newSignal, Event.abortFired 0]) 5 (some 0) =
      (runTrace [Event.newSignal, Event.abortFired 0], RunStatus.thrown Reason.alreadyAborted) ∧
    Reason.message Reason.alreadyAborted = "Signal already aborted" :=
  C3_prefired_short_circuit (runTrace [Event.newSignal, Event.abortFired 0]) 5 0 (by decide)

/-- C2: on every failure settlement — a process `error` notification, a
nonzero exit code, or the signal firing during execution — `handleError`
clears `_memoizedResult` to `null` and rejects the promise with the
corresponding error, so the failure reaches the awaiting caller but is
never retained as memoized; and a `run` call on a unit whose cache is
empty spawns a fresh process. -/
theorem C2_failure_not_memoized
    (stE : SysState) (pidE : Nat) (msg : String) (PE : ProcHandle) (ctxE : ExecCtx)
    (hE1 : getProc stE pidE = some PE) (hE2 : PE.listenersCtx = some ctxE)
    (hE3 : getProm stE ctxE.prom = some PromState.pending)
    (stC : SysState) (pidC : Nat) (code : Int) (PC : ProcHandle) (ctxC : ExecCtx)
    (hC1 : getProc stC pidC = some PC) (hC2 : PC.listenersCtx = some ctxC)
    (hC3 : getProm stC ctxC.prom = some PromState.pending) (hc : code ≠ 0)
    (stA : SysState) (sid : Nat) (g : AbortSignalState) (ctxA : ExecCtx)
    (hA1 : getSignal stA sid = some g) (hA2 : g.aborted = false)
    (hA3 : g.abortListeners = [ctxA]) (hA4 : getProm stA ctxA.prom = some PromState.pending)
    (stN : SysState) (uidN : Nat) (sigN : Option Nat)
    (hN1 : sigAborted stN sigN = false) (hN2 : memoOf stN uidN = none) :
    (memoOf (procErrorEvent stE pidE msg) ctxE.uid = none ∧
      getProm (procErrorEvent stE pidE msg) ctxE.prom =
        some (PromState.rejected (Reason.spawnError msg))) ∧
    (memoOf (procCloseEvent stC pidC code) ctxC.uid = none ∧
      getProm (procCloseEvent stC pidC code) ctxC.prom =
        some (PromState.rejected (Reason.nonZeroExit code))) ∧
    (memoOf (abortEvent stA sid) ctxA.uid = none ∧
      getProm (abortEvent stA sid) ctxA.prom =
        some (PromState.rejected Reason.abortTriggered)) ∧
    ((runPhase1 stN uidN sigN).2 = RunStatus.returned stN.nextProm ∧
      (runPhase1 stN uidN sigN).1.nextPid = stN.nextPid + 1) := by
  refine ⟨?_, ?_, ?_, ?_⟩
  · rw [procErrorEvent_eq stE pidE msg PE ctxE hE1 hE2]
    exact ⟨memoOf_handleError_self _ _ _ _, getProm_handleError_self _ _ _ _ hE3⟩
  · rw [procCloseEvent_nonzero stC pidC code PC ctxC hC1 hC2 hc]
    refine ⟨memoOf_handleError_self _ _ _ _, getProm_handleError_self _ _ _ _ ?_⟩
    rw [getProm_cleanup]
    exact hC3
  · rw [abortEvent_single stA sid g ctxA hA1 hA2 hA3]
    refine ⟨memoOf_handleError_self _ _ _ _, getProm_handleError_self _ _ _ _ ?_⟩
    rw [getProm_updSignal]
    exact hA4
  · rw [runPhase1_spawn stN uidN sigN hN1 hN2]
    exact ⟨rfl, nextPid_spawnFor stN uidN sigN⟩

/-- Witness for C2: an in-flight execution without a signal (for the
error and nonzero-exit parts), an in-flight execution under signal 0 (for
the abort part), and a fresh unit (for the fresh-spawn part). -/
theorem C2_witness :
    (memoOf (procErrorEvent (runTrace [Event.newUnit 1 "exit 1", Event.callRun 0 none]) 0 "boom")
        0 = none ∧
      getProm (procErrorEvent (runTrace [Event.newUnit 1 "exit 1", Event.callRun 0 none]) 0
        "boom") 0 = some (PromState.rejected (Reason.spawnError "boom"))) ∧
    (memoOf (procCloseEvent (runTrace [Event.newUnit 1 "exit 1", Event.callRun 0 none]) 0 1)
        0 = none ∧
      getProm (procCloseEvent (runTrace [Event.newUnit 1 "exit 1", Event.callRun 0 none]) 0 1)
        0 = some (PromState.rejected (Reason.nonZeroExit 1))) ∧
    (memoOf (abortEvent (runTrace [Event.newUnit 1 "sleep 5", Event.newSignal,
        Event.callRun 0 (some 0)]) 0) 0 = none ∧
      getProm (abortEvent (runTrace [Event.newUnit 1 "sleep 5", Event.newSignal,
        Event.callRun 0 (some 0)]) 0) 0 = some (PromState.rejected Reason.abortTriggered)) ∧
    ((runPhase1 (runTrace [Event.newUnit 1 "exit 1"]) 0 none).2 =
        RunStatus.returned (runTrace [Event.newUnit 1 "exit 1"]).nextProm ∧
      (runPhase1 (runTrace [Event.newUnit 1 "exit 1"]) 0 none).1.nextPid =
        (runTrace [Event.newUnit 1 "exit 1"]).nextPid + 1) :=
  C2_failure_not_memoized
    (runTrace [Event.newUnit 1 "exit 1", Event.callRun 0 none]) 0 "boom"
    { cmd := "exit 1", listenersCtx := some { uid := 0, prom := 0 }, killed := false,
      releaseCount := 0 } { uid := 0, prom := 0 } (by decide) (by decide) (by decide)
    (runTrace [Event.newUnit 1 "exit 1", Event.callRun 0 none]) 0 1
    { cmd := "exit 1", listenersCtx := some { uid := 0, prom := 0 }, killed := false,
      releaseCount := 0 } { uid := 0, prom := 0 } (by decide) (by decide) (by decide) (by decide)
    (runTrace [Event.newUnit 1 "sleep 5", Event.newSignal, Event.callRun 0 (some 0)]) 0
    { aborted := false, abortListeners := [{ uid := 0, prom := 0 }] } { uid := 0, prom := 0 }
    (by decide) (by decide) (by decide) (by decide)
    (runTrace [Event.newUnit 1 "exit 1"]) 0 none (by decide) (by decide)

/-- C9: the three failure sites use exactly the literal messages of the
source: the pre-fired-signal throw carries the string with the words
Signal already aborted, a nonzero exit rejects with the template string
followed by the decimal exit code, and the abort listener rejects with
the AbortSignal-triggered string. -/
theorem C9_literal_messages (st1 : SysState) (uid s : Nat)
    (h1 : sigAborted st1 (some s) = true)
    (st2 : SysState) (pid : Nat) (code : Int) (P : ProcHandle) (ctx : ExecCtx)
    (h2 : getProc st2 pid = some P) (h3 : P.listenersCtx = some ctx)
    (h4 : getProm st2 ctx.prom = some PromState.pending) (hc : code ≠ 0)
    (st3 : SysState) (sid : Nat) (g : AbortSignalState) (ctx2 : ExecCtx)
    (h5 : getSignal st3 sid = some g) (h6 : g.aborted = false)
    (h7 : g.abortListeners = [ctx2]) (h8 : getProm st3 ctx2.prom = some PromState.pending) :
    ((runPhase1 st1 uid (some s)).2 = RunStatus.thrown Reason.alreadyAborted ∧
      Reason.message Reason.alreadyAborted = "Signal already aborted") ∧
    (getProm (procCloseEvent st2 pid code) ctx.prom =
        some (PromState.rejected (Reason.nonZeroExit code)) ∧
      Reason.message (Reason.nonZeroExit code) =
        "Process exited with code " ++ toString code) ∧
    (getProm (abortEvent st3 sid) ctx2.prom = some (PromState.rejected Reason.abortTriggered) ∧
      Reason.message Reason.abortTriggered = "AbortSignal triggered") := by
  refine ⟨⟨?_, rfl⟩, ⟨?_, rfl⟩, ⟨?_, rfl⟩⟩
  · rw [runPhase1_prefired st1 uid (some s) h1]
  · rw [procCloseEvent_nonzero st2 pid code P ctx h2 h3 hc]
    refine getProm_handleError_self _ _ _ _ ?_
    rw [getProm_cleanup]
    exact h4
  · rw [abortEvent_single st3 sid g ctx2 h5 h6 h7]
    refine getProm_handleError_self _ _ _ _ ?_
    rw [getProm_updSignal]
    exact h8

/-- Witness for C9 at concrete heaps: a fired signal, an in-flight
execution closing with exit code 2, and an in-flight execution whose
signal fires. -/
theorem C9_witness :
    ((runPhase1 (runTrace [Event.newSignal, Event.abortFired 0]) 3 (some 0)).2 =
        RunStatus.thrown Reason.alreadyAborted ∧
      Reason.message Reason.alreadyAborted = "Signal already aborted") ∧
    (getProm (procCloseEvent (runTrace [Event.newUnit 1 "exit 2", Event.callRun 0 none]) 0 2)
        0 = some (PromState.rejected (Reason.nonZeroExit 2)) ∧
      Reason.message (Reason.nonZeroExit 2) = "Process exited with code " ++ toString (2 : Int)) ∧
    (getProm (abortEvent (runTrace [Event.newUnit 1 "sleep 5", Event.newSignal,
        Event.callRun 0 (some 0)]) 0) 0 = some (PromState.rejected Reason.abortTriggered) ∧
      Reason.message Reason.abortTriggered = "AbortSignal triggered") :=
  C9_literal_messages
    (runTrace [Event.newSignal, Event.abortFired 0]) 3 0 (by decide)
    (runTrace [Event.newUnit 1 "exit 2", Event.callRun 0 none]) 0 2
    { cmd := "exit 2", listenersCtx := some { uid := 0, prom := 0 }, killed := false,
      releaseCount := 0 } { uid := 0, prom := 0 } (by decide) (by decide) (by decide) (by decide)
    (runTrace [Event.newUnit 1 "sleep 5", Event.newSignal, Event.callRun 0 (some 0)]) 0
    { aborted := false, abortListeners := [{ uid := 0, prom := 0 }] } { uid := 0, prom := 0 }
    (by decide) (by decide) (by decide) (by decide)

/-- C4 counterexample: the claim that cleanup runs exactly once and that
`_childProcess` is set back to absent fails on the code.  After a
successful settlement the `_childProcess` field still holds the released
handle (it is never assigned `null`), and on a nonzero exit the cleanup
body acts on the handle twice: once in the `close` handler and once more
inside `handleError`. -/
theorem C4_counterexample :
    childOf (runTrace [Event.newUnit 1 "exit 0", Event.callRun 0 none, Event.procClose 0 0])
      0 = some 0 ∧
    (getProc (runTrace [Event.newUnit 1 "exit 1", Event.callRun 0 none, Event.procClose 0 3])
        0).map (fun p => p.releaseCount) = some 2 :=
  ⟨by decide, by decide⟩

/-- C4 amended: on every settlement path — success, error notification,
nonzero exit, cancellation — the handle held in `_childProcess` is
released (its process observers are detached and it is killed) and the
deferred result is settled; but `_childProcess` is not reset to absent
(it keeps referencing the released handle), and on the nonzero-exit path
the release body runs a second time. -/
theorem C4_release_on_settlement
    (st : SysState) (pid : Nat) (P : ProcHandle) (ctx : ExecCtx) (code : Int) (msg : String)
    (h1 : getProc st pid = some P) (h2 : P.listenersCtx = some ctx)
    (h3 : childOf st ctx.uid = some pid) (h4 : getProm st ctx.prom = some PromState.pending)
    (hc : code ≠ 0)
    (st2 : SysState) (sid pid2 : Nat) (g : AbortSignalState) (ctx2 : ExecCtx) (P2 : ProcHandle)
    (h5 : getSignal st2 sid = some g) (h6 : g.aborted = false) (h7 : g.abortListeners = [ctx2])
    (h8 : childOf st2 ctx2.uid = some pid2) (h9 : getProc st2 pid2 = some P2)
    (h10 : getProm st2 ctx2.prom = some PromState.pending) :
    (getProc (procCloseEvent st pid 0) pid =
        some { cmd := P.cmd, listenersCtx := none, killed := true,
               releaseCount := P.releaseCount + 1 } ∧
      getProm (procCloseEvent st pid 0) ctx.prom = some PromState.resolvedOk ∧
      childOf (procCloseEvent st pid 0) ctx.uid = some pid) ∧
    (getProc (procCloseEvent st pid code) pid =
        some { cmd := P.cmd, listenersCtx := none, killed := true,
               releaseCount := P.releaseCount + 2 } ∧
      getProm (procCloseEvent st pid code) ctx.prom =
        some (PromState.rejected (Reason.nonZeroExit code)) ∧
      childOf (procCloseEvent st pid code) ctx.uid = some pid) ∧
    (getProc (procErrorEvent st pid msg) pid =
        some { cmd := P.cmd, listenersCtx := none, killed := true,
               releaseCount := P.releaseCount + 1 } ∧
      getProm (procErrorEvent st pid msg) ctx.prom =
        some (PromState.rejected (Reason.spawnError msg)) ∧
      childOf (procErrorEvent st pid msg) ctx.uid = some pid) ∧
    (getProc (abortEvent st2 sid) pid2 =
        some { cmd := P2.cmd, listenersCtx := none, killed := true,
               releaseCount := P2.releaseCount + 1 } ∧
      getProm (abortEvent st2 sid) ctx2.prom = some (PromState.rejected Reason.abortTriggered) ∧
      childOf (abortEvent st2 sid) ctx2.uid = some pid2) := by
  refine ⟨?_, ?_, ?_, ?_⟩
  · rw [procCloseEvent_zero st pid P ctx h1 h2]
    refine ⟨?_, ?_, ?_⟩
    · rw [getProc_settleProm]
      exact getProc_cleanup_self st ctx.uid pid P h3 h1
    · refine getProm_settleProm_self _ _ _ ?_
      rw [getProm_cleanup]
      exact h4
    · rw [childOf_settleProm, childOf_cleanup]
      exact h3
  · rw [procCloseEvent_nonzero st pid code P ctx h1 h2 hc]
    refine ⟨?_, ?_, ?_⟩
    · have hch : childOf (cleanup st ctx.uid) ctx.uid = some pid := by
        rw [childOf_cleanup]; exact h3
      have hpr := getProc_cleanup_self st ctx.uid pid P h3 h1
      have := getProc_handleError_self (cleanup st ctx.uid) ctx.uid ctx.prom pid
        (Reason.nonZeroExit code) _ hch hpr
      rw [this]
    · refine getProm_handleError_self _ _ _ _ ?_
      rw [getProm_cleanup]
      exact h4
    · rw [childOf_handleError, childOf_cleanup]
      exact h3
  · rw [procErrorEvent_eq st pid msg P ctx h1 h2]
    refine ⟨getProc_handleError_self st ctx.uid ctx.prom pid _ P h3 h1, ?_, ?_⟩
    · exact getProm_handleError_self _ _ _ _ h4
    · rw [childOf_handleError]
      exact h3
  · rw [abortEvent_single st2 sid g ctx2 h5 h6 h7]
    refine ⟨?_, ?_, ?_⟩
    · refine getProc_handleError_self _ _ _ _ _ P2 ?_ ?_
      · rw [childOf_updSignal]
        exact h8
      · rw [getProc_updSignal]
        exact h9
    · refine getProm_handleError_self _ _ _ _ ?_
      rw [getProm_updSignal]
      exact h10
    · rw [childOf_handleError, childOf_updSignal]
      exact h8

/-- Witness for the amended C4 on concrete heaps. -/
theorem C4_witness :
    (getProc (procCloseEvent (runTrace [Event.newUnit 1 "exit 0", Event.callRun 0 none]) 0 0)
        0 = some { cmd := "exit 0", listenersCtx := none, killed := true, releaseCount := 1 } ∧
      getProm (procCloseEvent (runTrace [Event.newUnit 1 "exit 0", Event.callRun 0 none]) 0 0)
        0 = some PromState.resolvedOk ∧
      childOf (procCloseEvent (runTrace [Event.newUnit 1 "exit 0", Event.callRun 0 none]) 0 0)
        0 = some 0) ∧
    (getProc (procCloseEvent (runTrace [Event.newUnit 1 "exit 0", Event.callRun 0 none]) 0 7)
        0 = some { cmd := "exit 0", listenersCtx := none, killed := true, releaseCount := 2 } ∧
      getProm (procCloseEvent (runTrace [Event.newUnit 1 "exit 0", Event.callRun 0 none]) 0 7)
        0 = some (PromState.rejected (Reason.nonZeroExit 7)) ∧
      childOf (procCloseEvent (runTrace [Event.newUnit 1 "exit 0", Event.callRun 0 none]) 0 7)
        0 = some 0) ∧
    (getProc (procErrorEvent (runTrace [Event.newUnit 1 "exit 0", Event.callRun 0 none]) 0 "e")
        0 = some { cmd := "exit 0", listenersCtx := none, killed := true, releaseCount := 1 } ∧
      getProm (procErrorEvent (runTrace [Event.newUnit 1 "exit 0", Event.callRun 0 none]) 0 "e")
        0 = some (PromState.rejected (Reason.spawnError "e")) ∧
      childOf (procErrorEvent (runTrace [Event.newUnit 1 "exit 0", Event.callRun 0 none]) 0 "e")
        0 = some 0) ∧
    (getProc (abortEvent (runTrace [Event.newUnit 1 "sleep 5", Event.newSignal,
        Event.callRun 0 (some 0)]) 0) 0 =
        some { cmd := "sleep 5", listenersCtx := none, killed := true, releaseCount := 1 } ∧
      getProm (abortEvent (runTrace [Event.newUnit 1 "sleep 5", Event.newSignal,
        Event.callRun 0 (some 0)]) 0) 0 = some (PromState.rejected Reason.abortTriggered) ∧
      childOf (abortEvent (runTrace [Event.newUnit 1 "sleep 5", Event.newSignal,
        Event.callRun 0 (some 0)]) 0) 0 = some 0) :=
  C4_release_on_settlement
    (runTrace [Event.newUnit 1 "exit 0", Event.callRun 0 none]) 0
    { cmd := "exit 0", listenersCtx := some { uid := 0, prom := 0 }, killed := false,
      releaseCount := 0 } { uid := 0, prom := 0 } 7 "e"
    (by decide) (by decide) (by decide) (by decide) (by decide)
    (runTrace [Event.newUnit 1 "sleep 5", Event.newSignal, Event.callRun 0 (some 0)]) 0 0
    { aborted := false, abortListeners := [{ uid := 0, prom := 0 }] } { uid := 0, prom := 0 }
    { cmd := "sleep 5", listenersCtx := some { uid := 0, prom := 0 }, killed := false,
      releaseCount := 0 }
    (by decide) (by decide) (by decide) (by decide) (by decide) (by decide)

/-- C6: on a unit with an empty cache, the first `run` call spawns
exactly one process and installs a pending promise; a second `run` call
arriving while that execution is in flight leaves the heap unchanged (no
second spawn) and suspends on the very same promise; when the process
exits with code 0 the promise resolves (still with only the one spawned
process) and the second caller's resumption returns that same promise, so
both callers receive the single execution's success. -/
theorem C6_concurrent_convergence (st : SysState) (uid : Nat) (sig1 sig2 : Option Nat)
    (u : PredictedProcess) (hu : getUnit st uid = some u) (hm : u.memoizedResult = none)
    (h1 : sigAborted st sig1 = false) (h2 : sigAborted st sig2 = false) :
    runPhase1 st uid sig1 = ((spawnFor st uid sig1).1, RunStatus.returned st.nextProm) ∧
    (spawnFor st uid sig1).1.nextPid = st.nextPid + 1 ∧
    runPhase1 (spawnFor st uid sig1).1 uid sig2 =
      ((spawnFor st uid sig1).1, RunStatus.awaiting st.nextProm) ∧
    (procCloseEvent (spawnFor st uid sig1).1 st.nextPid 0).nextPid = st.nextPid + 1 ∧
    getProm (procCloseEvent (spawnFor st uid sig1).1 st.nextPid 0) st.nextProm =
      some PromState.resolvedOk ∧
    runResume (procCloseEvent (spawnFor st uid sig1).1 st.nextPid 0) uid sig2 st.nextProm =
      (procCloseEvent (spawnFor st uid sig1).1 st.nextPid 0,
        RunStatus.returned st.nextProm) := by
  have hmm : memoOf st uid = none := by
    simp [memoOf, getUnit] at hu ⊢
    simp [hu, hm]
  have hP := getProc_spawnFor_new st uid sig1 u hu
  have hclose := procCloseEvent_zero (spawnFor st uid sig1).1 st.nextPid
    { cmd := u.command, listenersCtx := some { uid := uid, prom := st.nextProm },
      killed := false, releaseCount := 0 } { uid := uid, prom := st.nextProm } hP rfl
  refine ⟨runPhase1_spawn st uid sig1 h1 hmm, nextPid_spawnFor st uid sig1, ?_, ?_, ?_, ?_⟩
  · refine runPhase1_attach _ uid sig2 st.nextProm ?_ ?_
    · rw [sigAborted_spawnFor]
      exact h2
    · exact memoOf_spawnFor_self st uid sig1 u hu
  · rw [hclose, nextPid_settleProm, nextPid_cleanup, nextPid_spawnFor]
  · rw [hclose]
    refine getProm_settleProm_self _ _ _ ?_
    rw [getProm_cleanup]
    exact getProm_spawnFor_new st uid sig1
  · refine runResume_resolved _ uid sig2 st.nextProm st.nextProm ?_ ?_
    · rw [hclose]
      refine getProm_settleProm_self _ _ _ ?_
      rw [getProm_cleanup]
      exact getProm_spawnFor_new st uid sig1
    · rw [hclose, memoOf_settleProm, memoOf_cleanup]
      exact memoOf_spawnFor_self st uid sig1 u hu

/-- Witness for C6: a fresh unit, first caller with signal 0, second
caller with no signal. -/
theorem C6_witness :
    runPhase1 (runTrace [Event.newUnit 4 "sleep 1; exit 0", Event.newSignal]) 0 (some 0) =
      ((spawnFor (runTrace [Event.newUnit 4 "sleep 1; exit 0", Event.newSignal]) 0 (some 0)).1,
        RunStatus.returned 0) ∧
    (spawnFor (runTrace [Event.newUnit 4 "sleep 1; exit 0", Event.newSignal]) 0 (some 0)).1.nextPid
      = 1 ∧
    runPhase1
        (spawnFor (runTrace [Event.newUnit 4 "sleep 1; exit 0", Event.newSignal]) 0 (some 0)).1
        0 none =
      ((spawnFor (runTrace [Event.newUnit 4 "sleep 1; exit 0", Event.newSignal]) 0 (some 0)).1,
        RunStatus.awaiting 0) ∧
    (procCloseEvent
        (spawnFor (runTrace [Event.newUnit 4 "sleep 1; exit 0", Event.newSignal]) 0 (some 0)).1
        0 0).nextPid = 1 ∧
    getProm (procCloseEvent
        (spawnFor (runTrace [Event.newUnit 4 "sleep 1; exit 0", Event.newSignal]) 0 (some 0)).1
        0 0) 0 = some PromState.resolvedOk ∧
    runResume (procCloseEvent
        (spawnFor (runTrace [Event.newUnit 4 "sleep 1; exit 0", Event.newSignal]) 0 (some 0)).1
        0 0) 0 none 0 =
      (procCloseEvent
        (spawnFor (runTrace [Event.newUnit 4 "sleep 1; exit 0", Event.newSignal]) 0 (some 0)).1
        0 0, RunStatus.returned 0) :=
  C6_concurrent_convergence (runTrace [Event.newUnit 4 "sleep 1; exit 0", Event.newSignal])
    0 (some 0) none
    { id := 4, command := "sleep 1; exit 0", childProcess := none, memoizedResult := none }
    (by decide) (by decide) (by decide) (by decide)

/-- C7: `memoize` returns a new unit carrying the source's `id` and
`command`, whose `_memoizedResult` is the very same promise reference the
source held at the moment of the call (absent if the source had none),
and whose `_childProcess` starts absent; the source object itself is left
unchanged. -/
theorem C7_snapshot (st : SysState) (uid : Nat) (u : PredictedProcess)
    (h : getUnit st uid = some u) :
    (memoize st uid).2 = st.nextUid ∧
    getUnit (memoize st uid).1 st.nextUid =
      some { id := u.id, command := u.command, childProcess := none,
             memoizedResult := u.memoizedResult } ∧
    (uid ≠ st.nextUid → getUnit (memoize st uid).1 uid = some u) := by
  simp [getUnit] at h
  refine ⟨?_, ?_, ?_⟩
  · simp [memoize, h]
  · simp [memoize, h, getUnit]
  · intro hne
    simp [memoize, h, getUnit, hne]

/-- Witness for C7: snapshot of a unit with a pending cached promise. -/
theorem C7_witness :
    (memoize (runTrace [Event.newUnit 9 "sleep 5", Event.callRun 0 none]) 0).2 = 1 ∧
    getUnit (memoize (runTrace [Event.newUnit 9 "sleep 5", Event.callRun 0 none]) 0).1 1 =
      some { id := 9, command := "sleep 5", childProcess := none, memoizedResult := some 0 } ∧
    (0 ≠ (runTrace [Event.newUnit 9 "sleep 5", Event.callRun 0 none]).nextUid →
      getUnit (memoize (runTrace [Event.newUnit 9 "sleep 5", Event.callRun 0 none]) 0).1 0 =
        some { id := 9, command := "sleep 5", childProcess := some 0,
               memoizedResult := some 0 }) :=
  C7_snapshot (runTrace [Event.newUnit 9 "sleep 5", Event.callRun 0 none]) 0
    { id := 9, command := "sleep 5", childProcess := some 0, memoizedResult := some 0 }
    (by decide)

/-- C8: snapshot taken while an execution is pending, then the shared
promise settles as failure.  The snapshot's `_memoizedResult` is the same
promise the source held; the failure's `handleError` clears only the
source unit's field, while the snapshot's field keeps referencing the
now-rejected promise; a later `run` call on the snapshot suspends on that
promise, and its resumption observes the rejection, clears the snapshot's
field locally and spawns afresh, so the stale reference is gone. -/
theorem C8_snapshot_failure_divergence (st : SysState) (uidU pid q : Nat)
    (U : PredictedProcess) (P : ProcHandle) (code : Int)
    (hU : getUnit st uidU = some U) (hUm : U.memoizedResult = some q)
    (hUc : U.childProcess = some pid) (hP : getProc st pid = some P)
    (hctx : P.listenersCtx = some { uid := uidU, prom := q })
    (hq : getProm st q = some PromState.pending) (hqlt : q < st.nextProm)
    (hc : code ≠ 0) (hvid : uidU ≠ st.nextUid) :
    memoOf (memoize st uidU).1 st.nextUid = some q ∧
    memoOf (procCloseEvent (memoize st uidU).1 pid code) uidU = none ∧
    memoOf (procCloseEvent (memoize st uidU).1 pid code) st.nextUid = some q ∧
    getProm (procCloseEvent (memoize st uidU).1 pid code) q =
      some (PromState.rejected (Reason.nonZeroExit code)) ∧
    runPhase1 (procCloseEvent (memoize st uidU).1 pid code) st.nextUid none =
      (procCloseEvent (memoize st uidU).1 pid code, RunStatus.awaiting q) ∧
    (runResume (procCloseEvent (memoize st uidU).1 pid code) st.nextUid none q).2 =
      RunStatus.returned st.nextProm ∧
    memoOf (runResume (procCloseEvent (memoize st uidU).1 pid code) st.nextUid none q).1
      st.nextUid = some st.nextProm ∧
    st.nextProm ≠ q := by
  have hUheap : st.units uidU = some U := by
    simpa [getUnit] using hU
  have hsnapMemo : memoOf (memoize st uidU).1 st.nextUid = some q := by
    simp [memoize, hUheap, memoOf, hUm]
  have hsnapUnit : getUnit (memoize st uidU).1 st.nextUid =
      some { id := U.id, command := U.command, childProcess := none,
             memoizedResult := U.memoizedResult } := by
    simp [memoize, hUheap, getUnit]
  have hsrcUnit : getUnit (memoize st uidU).1 uidU = some U := by
    rw [getUnit_memoize_ne st uidU uidU hvid]
    exact hU
  have hsrcChild : childOf (memoize st uidU).1 uidU = some pid := by
    simp [childOf, getUnit] at hsrcUnit ⊢
    simp [hsrcUnit, hUc]
  have hP1 : getProc (memoize st uidU).1 pid = some P := by
    rw [getProc_memoize]
    exact hP
  have hq1 : getProm (memoize st uidU).1 q = some PromState.pending := by
    rw [getProm_memoize]
    exact hq
  have hclose := procCloseEvent_nonzero (memoize st uidU).1 pid code P
    { uid := uidU, prom := q } hP1 hctx hc
  have hne : st.nextUid ≠ uidU := fun h => hvid h.symm
  have hmemoAfter : memoOf (procCloseEvent (memoize st uidU).1 pid code) st.nextUid = some q := by
    rw [hclose, memoOf_handleError_ne _ _ _ _ _ hne, memoOf_cleanup]
    simpa [memoOf, getUnit] using hsnapMemo
  have hrej : getProm (procCloseEvent (memoize st uidU).1 pid code) q =
      some (PromState.rejected (Reason.nonZeroExit code)) := by
    rw [hclose]
    refine getProm_handleError_self _ _ _ _ ?_
    rw [getProm_cleanup]
    exact hq1
  have hsnapUnit2 : getUnit (procCloseEvent (memoize st uidU).1 pid code) st.nextUid =
      some { id := U.id, command := U.command, childProcess := none,
             memoizedResult := U.memoizedResult } := by
    rw [hclose]
    unfold handleError
    rw [getUnit_settleProm, getUnit_updUnit_ne _ _ _ _ hne, getUnit_cleanup, getUnit_cleanup]
    exact hsnapUnit
  have hnpm : (procCloseEvent (memoize st uidU).1 pid code).nextProm = st.nextProm := by
    rw [hclose, nextProm_handleError, nextProm_cleanup, nextProm_memoize]
  refine ⟨hsnapMemo, ?_, hmemoAfter, hrej, ?_, ?_, ?_, ?_⟩
  · rw [hclose]
    exact memoOf_handleError_self _ _ _ _
  · exact runPhase1_attach _ st.nextUid none q rfl hmemoAfter
  · rw [runResume_rejected _ st.nextUid none q (Reason.nonZeroExit code) hrej, hnpm]
  · rw [runResume_rejected _ st.nextUid none q (Reason.nonZeroExit code) hrej]
    have hcleared : getUnit (updUnit (procCloseEvent (memoize st uidU).1 pid code) st.nextUid
        (fun u => { u with memoizedResult := none })) st.nextUid =
        some { id := U.id, command := U.command, childProcess := none,
               memoizedResult := none } := by
      simp [getUnit, updUnit]
      simp [getUnit] at hsnapUnit2
      simp [hsnapUnit2]
    rw [memoOf_spawnFor_self _ st.nextUid none _ hcleared, nextProm_updUnit, hnpm]
  · omega

/-- Witness for C8: a unit with an in-flight execution, a snapshot of
it, and the execution failing with exit code 5. -/
theorem C8_witness :
    memoOf (memoize (runTrace [Event.newUnit 2 "exit 5", Event.callRun 0 none]) 0).1 1 =
      some 0 ∧
    memoOf (procCloseEvent (memoize (runTrace [Event.newUnit 2 "exit 5",
      Event.callRun 0 none]) 0).1 0 5) 0 = none ∧
    memoOf (procCloseEvent (memoize (runTrace [Event.newUnit 2 "exit 5",
      Event.callRun 0 none]) 0).1 0 5) 1 = some 0 ∧
    getProm (procCloseEvent (memoize (runTrace [Event.newUnit 2 "exit 5",
      Event.callRun 0 none]) 0).1 0 5) 0 = some (PromState.rejected (Reason.nonZeroExit 5)) ∧
    runPhase1 (procCloseEvent (memoize (runTrace [Event.newUnit 2 "exit 5",
      Event.callRun 0 none]) 0).1 0 5) 1 none =
      (procCloseEvent (memoize (runTrace [Event.newUnit 2 "exit 5",
        Event.callRun 0 none]) 0).1 0 5, RunStatus.awaiting 0) ∧
    (runResume (procCloseEvent (memoize (runTrace [Event.newUnit 2 "exit 5",
      Event.callRun 0 none]) 0).1 0 5) 1 none 0).2 = RunStatus.returned 1 ∧
    memoOf (runResume (procCloseEvent (memoize (runTrace [Event.newUnit 2 "exit 5",
      Event.callRun 0 none]) 0).1 0 5) 1 none 0).1 1 = some 1 ∧
    (1 : Nat) ≠ 0 :=
  C8_snapshot_failure_divergence (runTrace [Event.newUnit 2 "exit 5", Event.callRun 0 none])
    0 0 0
    { id := 2, command := "exit 5", childProcess := some 0, memoizedResult := some 0 }
    { cmd := "exit 5", listenersCtx := some { uid := 0, prom := 0 }, killed := false,
      releaseCount := 0 } 5
    (by decide) (by decide) (by decide) (by decide) (by decide) (by decide) (by decide)
    (by decide) (by decide)

/-- Schedule for C1/C5: unit 0 runs under signal 0, the process exits
with code 0 (success settles and is cached), and only afterwards does
signal 0 fire. -/
def lateAbortPrefix : List Event :=
  [Event.newUnit 1 "exit 0", Event.newSignal, Event.callRun 0 (some 0), Event.procClose 0 0]

/-- C1 fails on the code: after the execution under signal 0 settles
successfully, the success is cached (`_memoizedResult` holds resolved
promise 0); but because the abort listener registered on the signal is
never removed, a later firing of that signal runs `handleError`, which
clears `_memoizedResult`; the next `run` call (here with no signal at
all) then finds an empty cache and spawns a second process
(`nextPid` goes from 1 to 2) instead of returning the cached success. -/
theorem C1_late_abort_defeats_memoization :
    (memoOf (runTrace lateAbortPrefix) 0 = some 0 ∧
      getProm (runTrace lateAbortPrefix) 0 = some PromState.resolvedOk ∧
      (runTrace lateAbortPrefix).nextPid = 1) ∧
    memoOf (runTrace (lateAbortPrefix ++ [Event.abortFired 0])) 0 = none ∧
    (runPhase1 (runTrace (lateAbortPrefix ++ [Event.abortFired 0])) 0 none).2 =
      RunStatus.returned 1 ∧
    (runPhase1 (runTrace (lateAbortPrefix ++ [Event.abortFired 0])) 0 none).1.nextPid = 2 :=
  ⟨⟨by decide, by decide, by decide⟩, by decide, by decide, by decide⟩

/-- C5 fails on the code: after the execution's first settlement
(success via exit code 0, one release of the handle), process
notifications are indeed no-ops because `cleanup` detached them — but the
cancellation notification for the same execution is not: the dangling
abort listener re-runs `cleanup` (the handle's release count goes from 1
to 2) and clears `_memoizedResult`.  Only the settled promise itself is
protected (first-writer-wins keeps it resolved). -/
theorem C5_late_notification_not_noop :
    ((getProc (runTrace lateAbortPrefix) 0).map (fun p => p.releaseCount) = some 1 ∧
      memoOf (runTrace lateAbortPrefix) 0 = some 0) ∧
    procCloseEvent (runTrace lateAbortPrefix) 0 9 = runTrace lateAbortPrefix ∧
    procErrorEvent (runTrace lateAbortPrefix) 0 "late" = runTrace lateAbortPrefix ∧
    (getProm (runTrace (lateAbortPrefix ++ [Event.abortFired 0])) 0 =
        some PromState.resolvedOk ∧
      (getProc (runTrace (lateAbortPrefix ++ [Event.abortFired 0])) 0).map
        (fun p => p.releaseCount) = some 2 ∧
      memoOf (runTrace (lateAbortPrefix ++ [Event.abortFired 0])) 0 = none) :=
  ⟨⟨by decide, by decide⟩, rfl, rfl, by decide, by decide, by decide⟩

/-- Schedule for C10: unit 0 succeeds under signal 0 and the success is
cached; a caller with no signal then attaches to the cached resolved
promise 0; before its resumption runs, signal 0 fires late (clearing the
cache through the dangling listener) and a third caller starts a new
execution under signal 1 (promise 1). -/
def noTokenPrefix : List Event :=
  [Event.newUnit 7 "sleep 1", Event.newSignal, Event.newSignal,
   Event.callRun 0 (some 0), Event.procClose 0 0]

/-- Continuation of the C10 schedule after the no-signal caller has
suspended on promise 0. -/
def noTokenSwap : List Event :=
  noTokenPrefix ++ [Event.abortFired 0, Event.callRun 0 (some 1)]

/-- C10 fails on the code: the `run` call with the signal omitted
suspends awaiting cached promise 0, which is resolved, so its `await`
does not throw; but when it resumes, `_memoizedResult` has been swapped
(late abort of signal 0 cleared it, a third caller under signal 1
repopulated it with promise 1), and the function returns promise 1 — a
promise belonging to an execution started with a signal.  When signal 1
fires, promise 1 rejects with the AbortSignal-triggered error, so the
caller that passed no token at all fails with the
cancellation-during-execution failure. -/
theorem C10_no_token_observes_cancellation :
    (runPhase1 (runTrace noTokenPrefix) 0 none).2 = RunStatus.awaiting 0 ∧
    getProm (runTrace noTokenSwap) 0 = some PromState.resolvedOk ∧
    (runResume (runTrace noTokenSwap) 0 none 0).2 = RunStatus.returned 1 ∧
    getProm (abortEvent (runTrace noTokenSwap) 1) 1 =
      some (PromState.rejected Reason.abortTriggered) ∧
    Reason.message Reason.abortTriggered = "AbortSignal triggered" :=
  ⟨by decide, by decide, by decide, by decide, rfl⟩

end PProc
